import Mathlib

/-!
Verification of the TTWallet automation scripts.

The definitions below are a shallow embedding of the Python source in
`TTGopiWallet/api_automation_TTGopiWallet.py` (and its near-identical twin
`TTRamkiWallet/api_automation_TTRamkiWallet.py`; `toggle_strategy`,
`fetch_wallet_running_count` and the orchestrating `main` loop are
line-for-line the same in both files, so each is modelled once).
Network effects are modelled by scripting the outcome that each HTTP call
produces: a call either raises a transport exception or yields a response.
-/

namespace TTWallet

/-- An HTTP response as the scripts observe it: its status code and whether /
what its body decodes to.  For `toggle_strategy` only the status code and an
plain body string matter. -/
structure Response where
  status : Nat
  body : String
deriving DecidableEq, Repr

/-!
### `toggle_strategy` (identical in both wallet files)

The Python loop, for `attempt` in `1..retries`:
  * `session.post` either raises (scripted as `none`) or yields a response
    (scripted as `some r`); a received response is remembered in
    `last_response`;
  * on exception: if `attempt < retries` sleep `backoff_seconds * attempt`
    and continue, otherwise return `None`;
  * on a response with `status_code < 500`: return it immediately;
  * otherwise (5xx): if `attempt < retries` sleep `backoff_seconds * attempt`
    and continue; falling out of the loop returns `last_response`.

`toggleLoop script retries backoff fuel attempt lastResponse` runs the loop
from attempt number `attempt` with `fuel = retries + 1 - attempt` iterations
left, and returns `(result, sleeps performed, attempts issued)`.
-/

def toggleLoop (script : Nat → Option Response) (retries backoff : Nat) :
    Nat → Nat → Option Response → Option Response × List Nat × Nat
  | 0, _, lastResponse => (lastResponse, [], 0)
  | fuel + 1, attempt, lastResponse =>
    match script attempt with
    | none =>
      if attempt < retries then
        let r := toggleLoop script retries backoff fuel (attempt + 1) lastResponse
        (r.1, backoff * attempt :: r.2.1, r.2.2 + 1)
      else (none, [], 1)
    | some resp =>
      if resp.status < 500 then (some resp, [], 1)
      else if attempt < retries then
        let r := toggleLoop script retries backoff fuel (attempt + 1) (some resp)
        (r.1, backoff * attempt :: r.2.1, r.2.2 + 1)
      else (some resp, [], 1)

/-- The function `toggle_strategy session strategy_id status retries backoff_seconds`,
with the POST outcomes scripted by 1-based attempt number.  Returns the
value Python returns (`None` or a response), the list of back-off sleeps
performed (in seconds, in order), and how many attempts were issued. -/
def toggle_strategy (script : Nat → Option Response) (retries backoff : Nat) :
    Option Response × List Nat × Nat :=
  toggleLoop script retries backoff retries 1 none

/-!
### JSON values and Python coercions

`fetch_current_status` walks the value produced by `response.json()`.
Integral numbers suffice for the documents the resolver meets (strategy
identifiers); floats do not occur in any claim.
-/

inductive Json where
  | null
  | bool (b : Bool)
  | num (n : Int)
  | str (s : String)
  | arr (items : List Json)
  | obj (fields : List (String × Json))

mutual
/-- Python `repr` of a parsed-JSON value (what `str` prints for values nested
inside a dict or list). -/
def pyRepr : Json → String
  | .null => "None"
  | .bool true => "True"
  | .bool false => "False"
  | .num n => toString n
  | .str s => "'" ++ s ++ "'"
  | .arr items => "[" ++ pyReprItems items ++ "]"
  | .obj fields => "\x7b" ++ pyReprFields fields ++ "\x7d"

/-- Comma-separated reprs of the items of a list. -/
def pyReprItems : List Json → String
  | [] => ""
  | [x] => pyRepr x
  | x :: y :: rest => pyRepr x ++ ", " ++ pyReprItems (y :: rest)

/-- Comma-separated `'key': repr` pairs of a dict. -/
def pyReprFields : List (String × Json) → String
  | [] => ""
  | [(k, v)] => "'" ++ k ++ "': " ++ pyRepr v
  | (k, v) :: p :: rest => "'" ++ k ++ "': " ++ pyRepr v ++ ", " ++ pyReprFields (p :: rest)
end

/-- Python `str` of a parsed-JSON value: like `repr` except a string prints
as itself. -/
def pyStr : Json → String
  | .str s => s
  | v => pyRepr v

/-- Python truthiness of a parsed-JSON value (`if data:`): `None`, `False`,
`0`, `""`, `[]` and `{}` are falsy. -/
def jsonTruthy : Json → Bool
  | .null => false
  | .bool b => b
  | .num n => n != 0
  | .str s => s != ""
  | .arr items => !items.isEmpty
  | .obj fields => !fields.isEmpty

/-- Whether `needle` is a prefix of some suffix of `hay`. -/
def sublistScan (needle : List Char) : List Char → Bool
  | [] => needle.isEmpty
  | c :: rest => needle.isPrefixOf (c :: rest) || sublistScan needle rest

/-- Python `str.strip()`: drop leading and trailing whitespace. -/
def pyStrip (s : String) : String :=
  String.mk
    (((s.data.dropWhile Char.isWhitespace).reverse.dropWhile Char.isWhitespace).reverse)

/-- Python `in` on strings: `needle` occurs as a contiguous substring. -/
def pySubstr (needle hay : String) : Bool :=
  sublistScan needle.toList hay.toList

/-- Lookup as in `dict(pairs).get(key)`: a Python dict built from a key/value list keeps the *last*
binding of a repeated key. -/
def pyDictGet (pairs : List (String × String)) (key : String) : Option String :=
  pairs.reverse.lookup key

/-!
### `fetch_current_status` - recursive JSON extraction (`find_status`)
-/

/-- The `id_keys` set of `fetch_current_status` (iteration order of a Python
set literal is implementation defined; only membership matters below). -/
def id_keys : List String :=
  ["id", "deployment_id", "deployed_id", "strategy_id", "tradetron_id",
   "deployed_strategy_id", "deploy_id", "deploymentId", "deployedStrategyId",
   "strategy_deploy_id"]

/-- The `status_keys` set of `fetch_current_status`. -/
def status_keys : List String :=
  ["status", "execution_status", "executionStatus", "execution_status_name",
   "state", "live_status", "current_status", "status_label", "statusText",
   "execution"]

/-- The tuple of recognised inner label keys (a Python tuple, so ordered). -/
def inner_label_keys : List String :=
  ["status", "label", "name", "text"]

/-- The test `key in node and str(node.get(key)) == str(strategy_id)` for some
recognised identifier key.  `sid` is `str(strategy_id)`. -/
def matchIdKeys (fields : List (String × Json)) (sid : String) : Bool :=
  id_keys.any fun key =>
    match fields.lookup key with
    | some v => pyStr v == sid
    | none => false

/-- The status label extracted from the value of the first recognised status
key: a dict value is unwrapped through the first recognised inner key
(falling back to `str` of the whole dict), anything else is `str`-ed. -/
def extractLabel : Json → String
  | .obj innerFields =>
    match inner_label_keys.findSome? fun key => innerFields.lookup key with
    | some inner => pyStr inner
    | none => pyStr (.obj innerFields)
  | v => pyStr v

/-- The label from the first recognised status key present in the node,
if any. -/
def statusFromNode (fields : List (String × Json)) : Option String :=
  (status_keys.findSome? fun key => fields.lookup key).map extractLabel

mutual
/-- The recursive `find_status` closure of `fetch_current_status`: on a dict
whose identifier matches, return the label of a recognised status key if one
is present; otherwise recurse depth-first into child values / items,
treating `""` as "not found". -/
def find_status (sid : String) : Json → String
  | .obj fields =>
    if matchIdKeys fields sid then
      match statusFromNode fields with
      | some label => label
      | none => findStatusInFields sid fields
    else findStatusInFields sid fields
  | .arr items => findStatusInItems sid items
  | _ => ""

/-- The loop `for value in node.values()` with its first-nonempty-result check. -/
def findStatusInFields (sid : String) : List (String × Json) → String
  | [] => ""
  | (_, v) :: rest =>
    let result := find_status sid v
    if result ≠ "" then result else findStatusInFields sid rest

/-- The loop `for item in node` with its first-nonempty-result check. -/
def findStatusInItems (sid : String) : List Json → String
  | [] => ""
  | item :: rest =>
    let result := find_status sid item
    if result ≠ "" then result else findStatusInItems sid rest
end

/-!
### `StatusHTMLParser` and `fetch_status_from_html`

The stdlib tokeniser is external to the repository; the parser is embedded
at its event interface (`handle_starttag` / `handle_endtag` / `handle_data`).
-/

inductive HtmlEvent where
  | starttag (tag : String) (attrs : List (String × String))
  | endtag (tag : String)
  | data (text : String)
deriving DecidableEq, Repr

/-- The mutable fields of `StatusHTMLParser`. -/
structure ParserState where
  in_target : Bool
  target_depth : Int
  awaiting_status_span : Bool
  capture_status : Bool
  status : String
deriving DecidableEq, Repr

/-- The state set up by `StatusHTMLParser.__init__`. -/
def initParserState : ParserState :=
  ⟨false, 0, false, false, ""⟩

/-- Handler `StatusHTMLParser.handle_starttag`. -/
def handle_starttag (sid : String) (s : ParserState)
    (tag : String) (attrs : List (String × String)) : ParserState :=
  let element_id := (pyDictGet attrs "id").getD ""
  if tag == "div" && element_id != "" && pySubstr sid element_id && !s.in_target then
    { s with in_target := true, target_depth := 1 }
  else if s.in_target then
    let s' := { s with target_depth := s.target_depth + 1 }
    if tag == "span" && s'.awaiting_status_span && s'.status == "" then
      { s' with capture_status := true }
    else s'
  else s

/-- Handler `StatusHTMLParser.handle_endtag`. -/
def handle_endtag (s : ParserState) (tag : String) : ParserState :=
  if s.in_target then
    let s' := { s with target_depth := s.target_depth - 1 }
    let s'' :=
      if s'.capture_status && tag == "span" then
        { s' with capture_status := false, awaiting_status_span := false }
      else s'
    if s''.target_depth ≤ 0 then
      { s'' with in_target := false, target_depth := 0 }
    else s''
  else s

/-- Handler `StatusHTMLParser.handle_data`. -/
def handle_data (s : ParserState) (raw : String) : ParserState :=
  if !s.in_target then s
  else
    let text := pyStrip raw
    if text == "" then s
    else if pySubstr "Status" text then
      { s with awaiting_status_span := true }
    else if s.capture_status && s.status == "" then
      { s with status := text }
    else s

/-- One tokeniser event dispatched to the corresponding handler. -/
def parserStep (sid : String) (s : ParserState) : HtmlEvent → ParserState
  | .starttag tag attrs => handle_starttag sid s tag attrs
  | .endtag tag => handle_endtag s tag
  | .data text => handle_data s text

/-- Feeding the whole event stream (`parser.feed(response.text)`) and then
reading `parser.status`. -/
def runStatusParser (sid : String) (events : List HtmlEvent) : String :=
  (events.foldl (parserStep sid) initParserState).status

/-- Whether a tokeniser event is a `div` start tag whose `id` attribute is
non-empty and contains `sid` — the only kind of event that can move the
parser out of its initial state. -/
def opensTarget (sid : String) : HtmlEvent → Bool
  | .starttag tag attrs =>
    tag == "div" && ((pyDictGet attrs "id").getD "" != "") &&
      pySubstr sid ((pyDictGet attrs "id").getD "")
  | _ => false

/-- Outcome of the dashboard GET inside `fetch_status_from_html`: the call
either raises a transport exception or yields a response whose HTML body is
given by its tokeniser event stream. -/
inductive HtmlFetchOutcome where
  | exn
  | resp (status : Nat) (events : List HtmlEvent)
deriving DecidableEq, Repr

/-- The function `fetch_status_from_html` - the GET is *not* wrapped in `try`, so a
transport exception propagates (modelled as `Except.error ()`). -/
def fetch_status_from_html (out : HtmlFetchOutcome) (sid : String) :
    Except Unit String :=
  match out with
  | .exn => .error ()
  | .resp status events =>
    if status ≠ 200 then .ok ""
    else .ok (runStatusParser sid events)

/-!
### `fetch_current_status` - the probe chain
-/

/-- Outcome of one probe request: a transport exception, or a response with
a status code and — when the body is decodable JSON — its decoded value. -/
inductive ProbeOutcome where
  | exn
  | resp (status : Nat) (body : Option Json)

/-- The probe loop of `fetch_current_status`: skip a probe on transport
exception, non-200 status, undecodable JSON, or decodable-but-falsy JSON
(`if data: break`); stop at the first probe with truthy JSON.  Returns the
winning payload (if any) and the number of probes issued. -/
def probeScan : List ProbeOutcome → Option Json × Nat
  | [] => (none, 0)
  | p :: rest =>
    match p with
    | .exn =>
      let r := probeScan rest
      (r.1, r.2 + 1)
    | .resp status body =>
      if status ≠ 200 then
        let r := probeScan rest
        (r.1, r.2 + 1)
      else
        match body with
        | none =>
          let r := probeScan rest
          (r.1, r.2 + 1)
        | some d =>
          if jsonTruthy d then (some d, 1)
          else
            let r := probeScan rest
            (r.1, r.2 + 1)

/-- Whether a probe outcome stops the probe chain: a 200 response whose
body decodes to Python-truthy JSON. -/
def probeWins : ProbeOutcome → Bool
  | .exn => false
  | .resp status body =>
    if status ≠ 200 then false
    else
      match body with
      | none => false
      | some d => jsonTruthy d

/-- Result of a `fetch_current_status` call that returned normally. -/
structure ResolveResult where
  label : String
  probesIssued : Nat
  usedHtml : Bool
deriving DecidableEq, Repr

/-- The function `fetch_current_status(session, strategy_id)` with the three probes'
outcomes and the HTML-fallback fetch scripted.  `sid` is
`str(strategy_id)`.  An `Except.error` models an exception escaping to the
caller (only possible from the unguarded HTML-fallback GET). -/
def fetch_current_status (p1 p2 p3 : ProbeOutcome) (html : HtmlFetchOutcome)
    (sid : String) : Except Unit ResolveResult :=
  let scan := probeScan [p1, p2, p3]
  match scan.1 with
  | some d => .ok ⟨find_status sid d, scan.2, false⟩
  | none =>
    match fetch_status_from_html html sid with
    | .error e => .error e
    | .ok htmlStatus =>
      if htmlStatus ≠ "" then .ok ⟨htmlStatus, scan.2, true⟩
      else .ok ⟨"", scan.2, true⟩

/-!
### `load_session` (Gopi variant; the Ramki variant differs only in that the
cookie blob always comes from the environment variable)
-/

/-- One cookie record `{name, value, domain}` from the pickled list. -/
structure Cookie where
  name : String
  value : String
  domain : Option String
deriving DecidableEq, Repr

/-- How `load_session` ends: a validated session carrying its cookies, a
`None` return (auth failure), or an uncaught exception escaping the
function (`pickle.load` is not wrapped in `try`). -/
inductive SessionResult where
  | ok (cookies : List Cookie)
  | authError
  | raised
deriving DecidableEq, Repr

/-- Outcome of the read-only validation GET against
`/api/pricing/user-taxes`. -/
inductive ValidationProbe where
  | exn
  | resp (status : Nat)
deriving DecidableEq, Repr

/-- The part of `load_session` after a cookie byte-string is available:
`pickle` decode (uncaught exception on malformed bytes), then the
validation probe; any non-200 status or transport exception returns
`None`. -/
def loadSessionRest (pickleResult : Option (List Cookie))
    (probe : ValidationProbe) : SessionResult :=
  match pickleResult with
  | none => .raised
  | some cookies =>
    match probe with
    | .exn => .authError
    | .resp status =>
      if status ≠ 200 then .authError else .ok cookies

/-- The function `load_session`: `fileExists` — the cookies file is on disk; `envBlob` —
`none` when `TT_COOKIES_B64_GOPI` is unset, `some b` when set with `b`
telling whether it base64-decodes; `pickleResult` — the cookie list the
bytes unpickle to (`none` = malformed); `probe` — the validation GET. -/
def load_session (fileExists : Bool) (envBlob : Option Bool)
    (pickleResult : Option (List Cookie)) (probe : ValidationProbe) :
    SessionResult :=
  if !fileExists then
    match envBlob with
    | some true => loadSessionRest pickleResult probe
    | some false => .authError
    | none => .authError
  else loadSessionRest pickleResult probe

/-!
### The orchestrating `main` loop (identical in both wallet files)

One scripted outcome per `toggle_strategy` call, indexed by issue order.
-/

inductive Cmd where
  | paused
  | start
deriving DecidableEq, Repr

/-- What one `toggle_strategy` call inside `main` produces, as `main` sees
it: the call raises, returns `None`, or returns a response with a status
code and a flag telling whether `response.json()` succeeds. -/
inductive StepOutcome where
  | exn
  | noResponse
  | resp (status : Nat) (jsonOk : Bool)
deriving DecidableEq, Repr

/-- Whether a cycle step takes the failure path (`had_failure = True` and
`break`): exception, no response, or a response whose status is not 200
(`if response and response.status_code == 200`; a `requests` response is
truthy exactly when its status is below 400, so the test is equivalent to
"a response arrived and its status is 200"). -/
def stepFailedB : StepOutcome → Bool
  | .exn => true
  | .noResponse => true
  | .resp status _ => status != 200

/-- The `error_details` entries one cycle step appends (tagged, with the
0-based index of the `toggle_strategy` call). -/
inductive Detail where
  | jsonParseError (idx : Nat)
  | cmdFailed (idx : Nat)
  | respSnippet (idx : Nat)
  | cmdException (idx : Nat)
  | finalFailed
  | finalSnippet
deriving DecidableEq, Repr

/-- Details appended while handling one cycle step: a 200 response with an
undecodable body records a JSON-parse-error detail (and sends a
notification) *without* entering the failure branch; a non-200 response
records the failure message and a body snippet; no response records just
the failure message; an exception records the exception message. -/
def stepDetails (idx : Nat) : StepOutcome → List Detail
  | .exn => [.cmdException idx]
  | .noResponse => [.cmdFailed idx]
  | .resp status jsonOk =>
    if status == 200 then
      if jsonOk then [] else [.jsonParseError idx]
    else [.cmdFailed idx, .respSnippet idx]

/-- Result of the `for i in range(NUM_TOGGLES)` loop. -/
structure LoopResult where
  cmds : List Cmd
  hadFailure : Bool
  details : List Detail
  completedCycles : Nat
deriving DecidableEq, Repr

/-- The toggle loop: each iteration issues a STOP (`"Paused"`) then a START
(`"Start"`) command, breaking out at the first step that takes the failure
path.  `idx` is the index of the next `toggle_strategy` call in the
script. -/
def runLoop (script : Nat → StepOutcome) : Nat → Nat → LoopResult
  | 0, _ => ⟨[], false, [], 0⟩
  | iters + 1, idx =>
    if stepFailedB (script idx) then
      ⟨[.paused], true, stepDetails idx (script idx), 0⟩
    else if stepFailedB (script (idx + 1)) then
      ⟨[.paused, .start], true,
        stepDetails idx (script idx) ++ stepDetails (idx + 1) (script (idx + 1)), 0⟩
    else
      let rest := runLoop script iters (idx + 2)
      ⟨.paused :: .start :: rest.cmds, rest.hadFailure,
        stepDetails idx (script idx) ++ stepDetails (idx + 1) (script (idx + 1)) ++
          rest.details,
        rest.completedCycles + 1⟩

/-- The final closing STOP is *not* inside a `try`: an exception from that
`toggle_strategy` call escapes `main`. -/
def finalEscapes : StepOutcome → Bool
  | .exn => true
  | _ => false

/-- Whether the final closing STOP takes its failure branch (status not
200 or no response); an exception escapes before the branch is reached. -/
def finalFailedB : StepOutcome → Bool
  | .exn => false
  | .noResponse => true
  | .resp status _ => status != 200

/-- Details appended by the final closing STOP (its JSON-parse failure on a
200 response is silently swallowed by `except: pass`). -/
def finalDetails : StepOutcome → List Detail
  | .exn => []
  | .noResponse => [.finalFailed]
  | .resp status _ =>
    if status == 200 then [] else [.finalFailed, .finalSnippet]

/-- Everything observable about one run of `main` after the session is
loaded. -/
structure MainResult where
  trace : List Cmd
  hadFailure : Bool
  details : List Detail
  completedCycles : Nat
  escaped : Bool
  walletLookups : Nat
  finalRunningCount : Option Nat
  exitCode : Nat
deriving DecidableEq, Repr

/-- The toggle-run portion of `main`: the cycle loop, the unconditional
final closing STOP, then — only when nothing failed — a single best-effort
`fetch_wallet_running_count` call (whose scripted result is `wallet`).  On
`had_failure` the process exits 1 *before* the wallet lookup; an exception
from the final STOP escapes to the top-level handler (exit 1, no lookup). -/
def mainRun (script : Nat → StepOutcome) (cycles : Nat) (wallet : Option Nat) :
    MainResult :=
  let loop := runLoop script cycles 0
  let finalO := script loop.cmds.length
  if finalEscapes finalO then
    ⟨loop.cmds ++ [.paused], loop.hadFailure, loop.details,
      loop.completedCycles, true, 0, none, 1⟩
  else if loop.hadFailure || finalFailedB finalO then
    ⟨loop.cmds ++ [.paused], true, loop.details ++ finalDetails finalO,
      loop.completedCycles, false, 0, none, 1⟩
  else
    ⟨loop.cmds ++ [.paused], false, loop.details ++ finalDetails finalO,
      loop.completedCycles, false, 1, wallet, 0⟩

/-- The commands `main` issues given how `load_session` ended: `main` exits
before the first toggle unless a validated session came back (an escaping
exception likewise reaches the top-level handler before any toggle). -/
def mainToggleTrace (loadResult : SessionResult) (script : Nat → StepOutcome)
    (cycles : Nat) (wallet : Option Nat) : List Cmd :=
  match loadResult with
  | .ok _ => (mainRun script cycles wallet).trace
  | .authError => []
  | .raised => []

example :
    toggle_strategy (fun j => if j = 1 then none else
      if j = 2 then some ⟨503, "s"⟩ else some ⟨200, "ok"⟩) 3 3 =
    (some ⟨200, "ok"⟩, [3, 6], 3) := by decide

example :
    toggle_strategy (fun j => if j = 3 then none else some ⟨503, "s"⟩) 3 3 =
    (none, [3, 6], 3) := by decide

example :
    toggle_strategy (fun _ => some ⟨404, "nf"⟩) 3 3 =
    (some ⟨404, "nf"⟩, [], 1) := by decide

lemma toggleLoop_attempts_pos (script : Nat → Option Response)
    (retries backoff : Nat) (fuel attempt : Nat) (lastR : Option Response)
    (hfuel : 1 ≤ fuel) :
    1 ≤ (toggleLoop script retries backoff fuel attempt lastR).2.2 := by
  obtain ⟨f, rfl⟩ : ∃ f, fuel = f + 1 := ⟨fuel - 1, by omega⟩
  cases hs : script attempt with
  | none =>
    by_cases hlt : attempt < retries <;> simp [toggleLoop, hs, hlt]
  | some r =>
    by_cases h5 : r.status < 500
    · simp [toggleLoop, hs, h5]
    · by_cases hlt : attempt < retries <;> simp [toggleLoop, hs, h5, hlt]

lemma toggleLoop_attempts_le (script : Nat → Option Response)
    (retries backoff : Nat) :
    ∀ fuel attempt lastR,
      (toggleLoop script retries backoff fuel attempt lastR).2.2 ≤ fuel := by
  intro fuel
  induction fuel with
  | zero => intro attempt lastR; simp [toggleLoop]
  | succ f ih =>
    intro attempt lastR
    cases hs : script attempt with
    | none =>
      by_cases hlt : attempt < retries
      · simpa [toggleLoop, hs, hlt] using ih (attempt + 1) lastR
      · simp [toggleLoop, hs, hlt]
    | some r =>
      by_cases h5 : r.status < 500
      · simp [toggleLoop, hs, h5]
      · by_cases hlt : attempt < retries
        · simpa [toggleLoop, hs, h5, hlt] using ih (attempt + 1) (some r)
        · simp [toggleLoop, hs, h5, hlt]

/-- Every attempt issued before the last one ended without a terminal
(`status < 500`) response: it was either a transport exception or a 5xx. -/
lemma toggleLoop_nonterminal (script : Nat → Option Response)
    (retries backoff : Nat) :
    ∀ fuel attempt lastR j, attempt ≤ j →
      j + 1 < attempt + (toggleLoop script retries backoff fuel attempt lastR).2.2 →
      script j = none ∨ ∃ r, script j = some r ∧ 500 ≤ r.status := by
  intro fuel
  induction fuel with
  | zero => intro attempt lastR j hj hlt; simp [toggleLoop] at hlt; omega
  | succ f ih =>
    intro attempt lastR j hj hlt
    cases hs : script attempt with
    | none =>
      by_cases hcond : attempt < retries
      · simp only [toggleLoop, hs, hcond, if_true] at hlt
        rcases Nat.eq_or_lt_of_le hj with rfl | hgt
        · exact Or.inl hs
        · exact ih (attempt + 1) lastR j hgt (by omega)
      · simp [toggleLoop, hs, hcond] at hlt; omega
    | some r =>
      by_cases h5 : r.status < 500
      · simp [toggleLoop, hs, h5] at hlt; omega
      · by_cases hcond : attempt < retries
        · simp only [toggleLoop, hs, h5, hcond, if_false, if_true] at hlt
          rcases Nat.eq_or_lt_of_le hj with rfl | hgt
          · exact Or.inr ⟨r, hs, by omega⟩
          · exact ih (attempt + 1) (some r) j hgt (by omega)
        · simp [toggleLoop, hs, h5, hcond] at hlt; omega

/-- The back-off sleeps performed are exactly
`backoff * attemptNumber` between consecutive attempts. -/
lemma toggleLoop_sleeps (script : Nat → Option Response)
    (retries backoff : Nat) :
    ∀ fuel attempt lastR, attempt + fuel = retries + 1 →
      (toggleLoop script retries backoff fuel attempt lastR).2.1 =
        (List.range ((toggleLoop script retries backoff fuel attempt lastR).2.2 - 1)).map
          (fun i => backoff * (attempt + i)) := by
  intro fuel
  induction fuel with
  | zero => intro attempt lastR _; simp [toggleLoop]
  | succ f ih =>
    intro attempt lastR hinv
    have key : ∀ lastR' : Option Response, attempt < retries →
        (backoff * attempt ::
            (toggleLoop script retries backoff f (attempt + 1) lastR').2.1) =
          (List.range ((toggleLoop script retries backoff f (attempt + 1) lastR').2.2 + 1 - 1)).map
            (fun i => backoff * (attempt + i)) := by
      intro lastR' hcond
      have hf : 1 ≤ f := by omega
      have hn := toggleLoop_attempts_pos script retries backoff f (attempt + 1) lastR' hf
      obtain ⟨m, hm⟩ : ∃ m,
          (toggleLoop script retries backoff f (attempt + 1) lastR').2.2 = m + 1 :=
        ⟨(toggleLoop script retries backoff f (attempt + 1) lastR').2.2 - 1, by omega⟩
      rw [ih (attempt + 1) lastR' (by omega), hm]
      simp only [Nat.add_sub_cancel, List.range_succ_eq_map, List.map_cons, List.map_map]
      refine congrArg₂ List.cons (by ring) (List.map_congr_left fun i _ => ?_)
      simp only [Function.comp_apply, Nat.succ_eq_add_one]
      ring
    cases hs : script attempt with
    | none =>
      by_cases hcond : attempt < retries
      · simpa only [toggleLoop, hs, hcond, if_true] using key lastR hcond
      · simp [toggleLoop, hs, hcond]
    | some r =>
      by_cases h5 : r.status < 500
      · simp [toggleLoop, hs, h5]
      · by_cases hcond : attempt < retries
        · simpa only [toggleLoop, hs, h5, hcond, if_false, if_true] using key (some r) hcond
        · simp [toggleLoop, hs, h5, hcond]

/-- If the last issued attempt received a terminal (`status < 500`)
response, that response is what the loop returns. -/
lemma toggleLoop_last_terminal (script : Nat → Option Response)
    (retries backoff : Nat) :
    ∀ fuel attempt lastR, attempt + fuel = retries + 1 → 1 ≤ fuel →
      ∀ r,
        script (attempt + (toggleLoop script retries backoff fuel attempt lastR).2.2 - 1) =
          some r →
        r.status < 500 →
        (toggleLoop script retries backoff fuel attempt lastR).1 = some r := by
  intro fuel
  induction fuel with
  | zero => intro attempt lastR _ hf; omega
  | succ f ih =>
    intro attempt lastR hinv _
    cases hs : script attempt with
    | none =>
      by_cases hcond : attempt < retries
      · have hf : 1 ≤ f := by omega
        have hn := toggleLoop_attempts_pos script retries backoff f (attempt + 1) lastR hf
        intro r hr h5
        simp only [toggleLoop, hs, hcond, if_true] at hr ⊢
        have hidx :
            attempt + ((toggleLoop script retries backoff f (attempt + 1) lastR).2.2 + 1) - 1 =
              attempt + 1 + (toggleLoop script retries backoff f (attempt + 1) lastR).2.2 - 1 := by
          omega
        rw [hidx] at hr
        exact ih (attempt + 1) lastR (by omega) hf r hr h5
      · intro r hr h5
        simp only [toggleLoop, hs, hcond, if_false] at hr ⊢
        simp only [Nat.add_sub_cancel] at hr
        rw [hs] at hr
        cases hr
    | some r0 =>
      by_cases h5 : r0.status < 500
      · intro r hr _
        simp only [toggleLoop, hs, h5, if_true] at hr ⊢
        simp only [Nat.add_sub_cancel] at hr
        rw [hs] at hr
        injection hr with he
        rw [he]
      · by_cases hcond : attempt < retries
        · have hf : 1 ≤ f := by omega
          intro r hr hr5
          simp only [toggleLoop, hs, h5, hcond, if_false, if_true] at hr ⊢
          have hidx :
              attempt +
                  ((toggleLoop script retries backoff f (attempt + 1) (some r0)).2.2 + 1) - 1 =
                attempt + 1 +
                  (toggleLoop script retries backoff f (attempt + 1) (some r0)).2.2 - 1 := by
            omega
          rw [hidx] at hr
          exact ih (attempt + 1) (some r0) (by omega) hf r hr hr5
        · intro r hr hr5
          simp only [toggleLoop, hs, h5, hcond, if_false] at hr ⊢
          simp only [Nat.add_sub_cancel] at hr
          rw [hs] at hr
          injection hr with he
          rw [he] at h5
          omega

/-- When every attempt raises a transport exception the loop returns `None`
after using its whole attempt budget. -/
lemma toggleLoop_allnone (script : Nat → Option Response)
    (retries backoff : Nat) :
    ∀ fuel attempt, attempt + fuel = retries + 1 →
      (∀ j, attempt ≤ j → j < attempt + fuel → script j = none) →
      (toggleLoop script retries backoff fuel attempt none).1 = none ∧
      (toggleLoop script retries backoff fuel attempt none).2.2 = fuel := by
  intro fuel
  induction fuel with
  | zero => intro attempt _ _; simp [toggleLoop]
  | succ f ih =>
    intro attempt hinv hall
    have hs : script attempt = none := hall attempt le_rfl (by omega)
    by_cases hcond : attempt < retries
    · have hrec := ih (attempt + 1) (by omega) fun j hj hjlt => hall j (by omega) (by omega)
      simp only [toggleLoop, hs, hcond, if_true]
      exact ⟨hrec.1, by rw [hrec.2]⟩
    · have hf : f = 0 := by omega
      simp [toggleLoop, hs, hcond, hf]

/-- If every attempt before the last ended non-terminally (exception or
5xx), the loop's return value is exactly the outcome of the very last
attempt: the last 5xx response, or `None` when the last attempt raised. -/
lemma toggleLoop_reaches_last (script : Nat → Option Response)
    (retries backoff : Nat) :
    ∀ fuel attempt lastR, attempt + fuel = retries + 1 → 1 ≤ fuel →
      (∀ j, attempt ≤ j → j < retries →
        script j = none ∨ ∃ r, script j = some r ∧ 500 ≤ r.status) →
      (toggleLoop script retries backoff fuel attempt lastR).1 = script retries := by
  intro fuel
  induction fuel with
  | zero => intro attempt lastR _ hf; omega
  | succ f ih =>
    intro attempt lastR hinv _ hall
    cases hs : script attempt with
    | none =>
      by_cases hcond : attempt < retries
      · have hf : 1 ≤ f := by omega
        simpa only [toggleLoop, hs, hcond, if_true] using
          ih (attempt + 1) lastR (by omega) hf fun j hj hlt => hall j (by omega) hlt
      · have ha : attempt = retries := by omega
        subst ha
        simp [toggleLoop, hs, hcond]
    | some r0 =>
      by_cases h5 : r0.status < 500
      · by_cases hcond : attempt < retries
        · rcases hall attempt le_rfl hcond with hnone | ⟨r', hr', h500⟩
          · rw [hs] at hnone; cases hnone
          · rw [hs] at hr'; injection hr' with he; rw [← he] at h500; omega
        · have ha : attempt = retries := by omega
          subst ha
          simp [toggleLoop, hs, h5]
      · by_cases hcond : attempt < retries
        · have hf : 1 ≤ f := by omega
          simpa only [toggleLoop, hs, h5, hcond, if_false, if_true] using
            ih (attempt + 1) (some r0) (by omega) hf fun j hj hlt => hall j (by omega) hlt
        · have ha : attempt = retries := by omega
          subst ha
          simp [toggleLoop, hs, h5, hcond]

/-- C1: for every `toggle_strategy` call with attempt budget `retries ≥ 1`
and any scripted per-attempt outcomes: at least one and at most `retries`
attempts are issued; every attempt before the last received either a
transport exception or a 5xx (so a `status < 500` response is terminal and
is followed by no further attempt); the sleeps performed are exactly
`backoff * attemptNumber` between consecutive attempts (none after the
terminal attempt); a terminal (`< 500`, including 4xx) response on the last
issued attempt is returned as-is; and when every attempt raises a transport
exception the function uses all `retries` attempts and returns `None`. -/
theorem claim_C1 (script : Nat → Option Response) (retries backoff : Nat)
    (res : Option Response) (sleeps : List Nat) (n : Nat)
    (hretries : 1 ≤ retries)
    (hrun : toggle_strategy script retries backoff = (res, sleeps, n)) :
    (1 ≤ n ∧ n ≤ retries) ∧
    (∀ j, j + 1 < 1 + n → 1 ≤ j →
      script j = none ∨ ∃ r, script j = some r ∧ 500 ≤ r.status) ∧
    sleeps = (List.range (n - 1)).map (fun i => backoff * (1 + i)) ∧
    (∀ r, script n = some r → r.status < 500 → res = some r) ∧
    ((∀ j, j ≤ retries → 1 ≤ j → script j = none) → res = none ∧ n = retries) := by
  have h1 := toggleLoop_attempts_pos script retries backoff retries 1 none hretries
  have h2 := toggleLoop_attempts_le script retries backoff retries 1 none
  have h3 := toggleLoop_nonterminal script retries backoff retries 1 none
  have h4 := toggleLoop_sleeps script retries backoff retries 1 none (by omega)
  have h5 := toggleLoop_last_terminal script retries backoff retries 1 none (by omega) hretries
  have h6 := toggleLoop_allnone script retries backoff retries 1 (by omega)
  rw [toggle_strategy] at hrun
  rw [hrun] at h1 h2 h3 h4 h5 h6
  simp only at h1 h2 h3 h4 h5 h6
  refine ⟨⟨h1, h2⟩, fun j ha hb => h3 j hb ha, h4, ?_, ?_⟩
  · intro r hr hr5
    have hidx : 1 + n - 1 = n := by omega
    rw [hidx] at h5
    exact h5 r hr hr5
  · intro hall
    exact h6 fun j hj hjlt => hall j (by omega) hj

/-- Witness for C1: a run whose first attempt raises, second gets a 503 and
third gets a 200 performs exactly the two back-off sleeps `3*1` and `3*2`. -/
theorem claim_C1_witness :
    ([3, 6] : List Nat) = (List.range (3 - 1)).map (fun i => 3 * (1 + i)) :=
  (claim_C1
    (fun j => if j = 1 then none else
      if j = 2 then some ⟨503, "s"⟩ else some ⟨200, "ok"⟩)
    3 3 (some ⟨200, "ok"⟩) [3, 6] 3 (by decide) (by decide)).2.2.1

/-- C10: when every attempt before the last ends non-terminally (transport
exception or 5xx), `toggle_strategy` returns exactly the outcome of its
final attempt: the last 5xx response when the final attempt got one, and
`None` — discarding any earlier 5xx response — when the final attempt
raised a transport exception. -/
theorem claim_C10 (script : Nat → Option Response) (retries backoff : Nat)
    (hretries : 1 ≤ retries)
    (hpre : ∀ j, j < retries → 1 ≤ j →
      script j = none ∨ ∃ r, script j = some r ∧ 500 ≤ r.status) :
    (toggle_strategy script retries backoff).1 = script retries :=
  toggleLoop_reaches_last script retries backoff retries 1 none (by omega) hretries
    fun j hj hlt => hpre j hlt hj

/-- Witness for C10: two 5xx responses followed by a transport exception on
the final attempt make `toggle_strategy` return `None`, discarding the
earlier 5xx responses. -/
theorem claim_C10_witness :
    (toggle_strategy
      (fun j => if j = 1 then some ⟨503, "e1"⟩ else
        if j = 2 then some ⟨502, "e2"⟩ else none) 3 3).1 = none :=
  claim_C10
    (fun j => if j = 1 then some ⟨503, "e1"⟩ else
      if j = 2 then some ⟨502, "e2"⟩ else none)
    3 3 (by decide)
    (by
      intro j hj h1
      interval_cases j
      · exact Or.inr ⟨⟨503, "e1"⟩, rfl, by decide⟩
      · exact Or.inr ⟨⟨502, "e2"⟩, rfl, by decide⟩)

/-- The toggle loop records a failure exactly when one of the steps it
issued took the failure path. -/
lemma runLoop_hadFailure (script : Nat → StepOutcome) :
    ∀ iters idx,
      ((runLoop script iters idx).hadFailure = true ↔
        ∃ j, j < (runLoop script iters idx).cmds.length ∧
          stepFailedB (script (idx + j)) = true) := by
  intro iters
  induction iters with
  | zero => intro idx; simp [runLoop]
  | succ it ih =>
    intro idx
    cases h1 : stepFailedB (script idx) with
    | true =>
      simp only [runLoop, h1, if_true]
      exact ⟨fun _ => ⟨0, by simp, by simpa using h1⟩, fun _ => trivial⟩
    | false =>
      cases h2 : stepFailedB (script (idx + 1)) with
      | true =>
        simp only [runLoop, h1, h2, Bool.false_eq_true, if_false, if_true]
        exact ⟨fun _ => ⟨1, by simp, by simpa using h2⟩, fun _ => trivial⟩
      | false =>
        simp only [runLoop, h1, h2, Bool.false_eq_true, if_false]
        constructor
        · intro hf
          obtain ⟨j, hj, hjf⟩ := (ih (idx + 2)).1 hf
          refine ⟨j + 2, by simp; omega, ?_⟩
          have harith : idx + (j + 2) = idx + 2 + j := by omega
          rw [harith]
          exact hjf
        · rintro ⟨j, hj, hjf⟩
          match j, hj, hjf with
          | 0, hj, hjf => rw [Nat.add_zero] at hjf; rw [h1] at hjf; cases hjf
          | 1, hj, hjf => rw [h2] at hjf; cases hjf
          | (j' + 2), hj, hjf =>
            apply (ih (idx + 2)).2
            refine ⟨j', by simp at hj; omega, ?_⟩
            have harith : idx + 2 + j' = idx + (j' + 2) := by omega
            rw [harith]
            exact hjf

/-- Fail-fast: every step issued before the last one succeeded — no cycle
command is ever issued after a failed step. -/
lemma runLoop_failfast (script : Nat → StepOutcome) :
    ∀ iters idx j, j + 1 < (runLoop script iters idx).cmds.length →
      stepFailedB (script (idx + j)) = false := by
  intro iters
  induction iters with
  | zero => intro idx j hj; simp [runLoop] at hj
  | succ it ih =>
    intro idx j hj
    cases h1 : stepFailedB (script idx) with
    | true => simp [runLoop, h1] at hj
    | false =>
      cases h2 : stepFailedB (script (idx + 1)) with
      | true =>
        simp [runLoop, h1, h2] at hj
        have : j = 0 := by omega
        subst this
        simpa using h1
      | false =>
        simp only [runLoop, h1, h2, Bool.false_eq_true, if_false] at hj
        simp only [List.length_cons] at hj
        match j with
        | 0 => simpa using h1
        | 1 => simpa using h2
        | (j' + 2) =>
          have harith : idx + (j' + 2) = idx + 2 + j' := by omega
          rw [harith]
          exact ih (idx + 2) j' (by omega)

/-- A 200 response whose body fails JSON decoding gets a parse-error detail
recorded for its step. -/
lemma runLoop_jsonDetail (script : Nat → StepOutcome) :
    ∀ iters idx j, j < (runLoop script iters idx).cmds.length →
      script (idx + j) = StepOutcome.resp 200 false →
      Detail.jsonParseError (idx + j) ∈ (runLoop script iters idx).details := by
  intro iters
  induction iters with
  | zero => intro idx j hj _; simp [runLoop] at hj
  | succ it ih =>
    intro idx j hj hstep
    cases h1 : stepFailedB (script idx) with
    | true =>
      simp [runLoop, h1] at hj ⊢
      have : j = 0 := by omega
      subst this
      rw [Nat.add_zero] at hstep
      rw [hstep] at h1
      simp [stepFailedB] at h1
    | false =>
      cases h2 : stepFailedB (script (idx + 1)) with
      | true =>
        simp only [runLoop, h1, h2, Bool.false_eq_true, if_false, if_true] at hj ⊢
        simp only [List.length_cons, List.length_nil] at hj
        match j with
        | 0 =>
          rw [Nat.add_zero] at hstep ⊢
          rw [hstep]
          simp [stepDetails]
        | 1 =>
          rw [hstep] at h2
          simp [stepFailedB] at h2
        | (j' + 2) => omega
      | false =>
        simp only [runLoop, h1, h2, Bool.false_eq_true, if_false] at hj ⊢
        simp only [List.length_cons] at hj
        match j with
        | 0 =>
          rw [Nat.add_zero] at hstep ⊢
          rw [hstep]
          simp [stepDetails]
        | 1 =>
          rw [hstep]
          simp [stepDetails]
        | (j' + 2) =>
          have harith : idx + (j' + 2) = idx + 2 + j' := by omega
          rw [harith] at hstep ⊢
          have hmem := ih (idx + 2) j' (by omega) hstep
          simp [hmem]

/-- The number of fully completed cycles when the loop runs clean. -/
lemma runLoop_zero (script : Nat → StepOutcome) (idx : Nat) :
    runLoop script 0 idx = ⟨[], false, [], 0⟩ := rfl

/-- Evaluation of `mainRun` when the final STOP raises. -/
lemma mainRun_eq_escape (script : Nat → StepOutcome) (cycles : Nat)
    (wallet : Option Nat)
    (h : finalEscapes (script (runLoop script cycles 0).cmds.length) = true) :
    mainRun script cycles wallet =
      ⟨(runLoop script cycles 0).cmds ++ [Cmd.paused],
        (runLoop script cycles 0).hadFailure, (runLoop script cycles 0).details,
        (runLoop script cycles 0).completedCycles, true, 0, none, 1⟩ := by
  simp only [mainRun]
  rw [if_pos h]

/-- Evaluation of `mainRun` when the final STOP returns but the run had a
failure (in a cycle step or in the final STOP itself). -/
lemma mainRun_eq_fail (script : Nat → StepOutcome) (cycles : Nat)
    (wallet : Option Nat)
    (h1 : finalEscapes (script (runLoop script cycles 0).cmds.length) = false)
    (h2 : ((runLoop script cycles 0).hadFailure ||
      finalFailedB (script (runLoop script cycles 0).cmds.length)) = true) :
    mainRun script cycles wallet =
      ⟨(runLoop script cycles 0).cmds ++ [Cmd.paused], true,
        (runLoop script cycles 0).details ++
          finalDetails (script (runLoop script cycles 0).cmds.length),
        (runLoop script cycles 0).completedCycles, false, 0, none, 1⟩ := by
  simp only [mainRun]
  rw [if_neg (by simp [h1]), if_pos h2]

/-- Evaluation of `mainRun` on a clean run: the single wallet lookup runs
and its scripted result is reported. -/
lemma mainRun_eq_ok (script : Nat → StepOutcome) (cycles : Nat)
    (wallet : Option Nat)
    (h1 : finalEscapes (script (runLoop script cycles 0).cmds.length) = false)
    (h2 : ((runLoop script cycles 0).hadFailure ||
      finalFailedB (script (runLoop script cycles 0).cmds.length)) = false) :
    mainRun script cycles wallet =
      ⟨(runLoop script cycles 0).cmds ++ [Cmd.paused], false,
        (runLoop script cycles 0).details ++
          finalDetails (script (runLoop script cycles 0).cmds.length),
        (runLoop script cycles 0).completedCycles, false, 1, wallet, 0⟩ := by
  simp only [mainRun]
  rw [if_neg (by simp [h1]), if_neg (by simp [h2])]

/-- Convenience three-way case split on how `mainRun` ends. -/
lemma mainRun_cases (script : Nat → StepOutcome) (cycles : Nat)
    (wallet : Option Nat) (motive : MainResult → Prop)
    (hesc : finalEscapes (script (runLoop script cycles 0).cmds.length) = true →
      motive ⟨(runLoop script cycles 0).cmds ++ [Cmd.paused],
        (runLoop script cycles 0).hadFailure, (runLoop script cycles 0).details,
        (runLoop script cycles 0).completedCycles, true, 0, none, 1⟩)
    (hfail : finalEscapes (script (runLoop script cycles 0).cmds.length) = false →
      ((runLoop script cycles 0).hadFailure ||
        finalFailedB (script (runLoop script cycles 0).cmds.length)) = true →
      motive ⟨(runLoop script cycles 0).cmds ++ [Cmd.paused], true,
        (runLoop script cycles 0).details ++
          finalDetails (script (runLoop script cycles 0).cmds.length),
        (runLoop script cycles 0).completedCycles, false, 0, none, 1⟩)
    (hok : finalEscapes (script (runLoop script cycles 0).cmds.length) = false →
      ((runLoop script cycles 0).hadFailure ||
        finalFailedB (script (runLoop script cycles 0).cmds.length)) = false →
      motive ⟨(runLoop script cycles 0).cmds ++ [Cmd.paused], false,
        (runLoop script cycles 0).details ++
          finalDetails (script (runLoop script cycles 0).cmds.length),
        (runLoop script cycles 0).completedCycles, false, 1, wallet, 0⟩) :
    motive (mainRun script cycles wallet) := by
  cases h1 : finalEscapes (script (runLoop script cycles 0).cmds.length) with
  | true => rw [mainRun_eq_escape script cycles wallet h1]; exact hesc h1
  | false =>
    cases h2 : ((runLoop script cycles 0).hadFailure ||
        finalFailedB (script (runLoop script cycles 0).cmds.length)) with
    | true => rw [mainRun_eq_fail script cycles wallet h1 h2]; exact hfail h1 h2
    | false => rw [mainRun_eq_ok script cycles wallet h1 h2]; exact hok h1 h2

/-- Theorem: `main` always issues exactly one final closing `"Paused"` command after
the cycle commands. -/
lemma mainRun_trace (script : Nat → StepOutcome) (cycles : Nat)
    (wallet : Option Nat) :
    (mainRun script cycles wallet).trace =
      (runLoop script cycles 0).cmds ++ [Cmd.paused] := by
  refine mainRun_cases script cycles wallet
    (fun r => r.trace = (runLoop script cycles 0).cmds ++ [Cmd.paused]) ?_ ?_ ?_ <;>
    intros <;> rfl

lemma mainRun_completedCycles (script : Nat → StepOutcome) (cycles : Nat)
    (wallet : Option Nat) :
    (mainRun script cycles wallet).completedCycles =
      (runLoop script cycles 0).completedCycles := by
  refine mainRun_cases script cycles wallet
    (fun r => r.completedCycles = (runLoop script cycles 0).completedCycles) ?_ ?_ ?_ <;>
    intros <;> rfl

lemma mainRun_escaped (script : Nat → StepOutcome) (cycles : Nat)
    (wallet : Option Nat) :
    (mainRun script cycles wallet).escaped =
      finalEscapes (script (runLoop script cycles 0).cmds.length) := by
  refine mainRun_cases script cycles wallet
    (fun r => r.escaped = finalEscapes (script (runLoop script cycles 0).cmds.length))
    ?_ ?_ ?_ <;> intro h <;> first | exact h.symm | (intro _; exact h.symm)

/-- When the final STOP does not raise, `main`'s failure flag is the loop's
failure flag joined with the final STOP's failure. -/
lemma mainRun_hadFailure (script : Nat → StepOutcome) (cycles : Nat)
    (wallet : Option Nat)
    (hesc : finalEscapes (script (runLoop script cycles 0).cmds.length) = false) :
    (mainRun script cycles wallet).hadFailure =
      ((runLoop script cycles 0).hadFailure ||
        finalFailedB (script (runLoop script cycles 0).cmds.length)) := by
  refine mainRun_cases script cycles wallet
    (fun r => r.hadFailure =
      ((runLoop script cycles 0).hadFailure ||
        finalFailedB (script (runLoop script cycles 0).cmds.length))) ?_ ?_ ?_
  · intro h; rw [h] at hesc; cases hesc
  · intro _ h2; exact h2.symm
  · intro _ h2; exact h2.symm

/-- Every detail recorded during the cycle loop survives into `main`'s
final detail list. -/
lemma mainRun_details_mono (script : Nat → StepOutcome) (cycles : Nat)
    (wallet : Option Nat) (d : Detail)
    (hd : d ∈ (runLoop script cycles 0).details) :
    d ∈ (mainRun script cycles wallet).details := by
  refine mainRun_cases script cycles wallet
    (fun r => d ∈ r.details) ?_ ?_ ?_
  · intro _; exact hd
  · intro _ _; simp [hd]
  · intro _ _; simp [hd]

lemma mainRun_wallet_fields (script : Nat → StepOutcome) (cycles : Nat)
    (wallet : Option Nat) :
    (mainRun script cycles wallet).exitCode = (mainRun script cycles none).exitCode ∧
    (mainRun script cycles wallet).hadFailure = (mainRun script cycles none).hadFailure ∧
    (mainRun script cycles wallet).escaped = (mainRun script cycles none).escaped ∧
    (mainRun script cycles wallet).walletLookups = (mainRun script cycles none).walletLookups := by
  cases h1 : finalEscapes (script (runLoop script cycles 0).cmds.length) with
  | true =>
    rw [mainRun_eq_escape script cycles wallet h1, mainRun_eq_escape script cycles none h1]
    exact ⟨rfl, rfl, rfl, rfl⟩
  | false =>
    cases h2 : ((runLoop script cycles 0).hadFailure ||
        finalFailedB (script (runLoop script cycles 0).cmds.length)) with
    | true =>
      rw [mainRun_eq_fail script cycles wallet h1 h2, mainRun_eq_fail script cycles none h1 h2]
      exact ⟨rfl, rfl, rfl, rfl⟩
    | false =>
      rw [mainRun_eq_ok script cycles wallet h1 h2, mainRun_eq_ok script cycles none h1 h2]
      exact ⟨rfl, rfl, rfl, rfl⟩

/-- C2 counterexample: a cycle whose first STOP gets a 200 response with an
undecodable JSON body is *not* classified as failed: the run continues (the
following START and the final STOP are still issued), `had_failure` stays
false, and only an error detail is recorded. -/
theorem claim_C2_counterexample :
    (mainRun (fun i => if i = 0 then StepOutcome.resp 200 false else
        StepOutcome.resp 200 true) 1 none).hadFailure = false ∧
    (mainRun (fun i => if i = 0 then StepOutcome.resp 200 false else
        StepOutcome.resp 200 true) 1 none).trace =
      [Cmd.paused, Cmd.start, Cmd.paused] ∧
    Detail.jsonParseError 0 ∈
      (mainRun (fun i => if i = 0 then StepOutcome.resp 200 false else
        StepOutcome.resp 200 true) 1 none).details ∧
    (mainRun (fun i => if i = 0 then StepOutcome.resp 200 false else
        StepOutcome.resp 200 true) 1 none).exitCode = 0 := by
  refine ⟨by decide, by decide, by decide, by decide⟩

/-- C2 (amended): a cycle step is classified as failed exactly when it got
no response, a response with status ≠ 200, or an exception while issuing;
a terminal 200 response makes the step succeed regardless of whether its
body decodes as JSON — a JSON-decode failure on a 200 response is recorded
as an error detail (and notified) but neither marks the run failed nor
stops further cycles. -/
theorem claim_C2_amended (script : Nat → StepOutcome) (cycles : Nat)
    (wallet : Option Nat) (n : Nat)
    (hn : (runLoop script cycles 0).cmds.length = n) :
    ((mainRun script cycles wallet).escaped = false →
      ((mainRun script cycles wallet).hadFailure = true ↔
        ((∃ j, j < n ∧ stepFailedB (script j) = true) ∨
          finalFailedB (script n) = true))) ∧
    (∀ j, j < n → script j = StepOutcome.resp 200 false →
      Detail.jsonParseError j ∈ (mainRun script cycles wallet).details) := by
  constructor
  · intro hesc
    rw [mainRun_escaped] at hesc
    rw [mainRun_hadFailure script cycles wallet hesc]
    rw [hn] at hesc ⊢
    have hloop := runLoop_hadFailure script cycles 0
    simp only [Nat.zero_add] at hloop
    rw [hn] at hloop
    constructor
    · intro h
      rcases Bool.or_eq_true_iff.1 h with hf | hf
      · exact Or.inl (hloop.1 hf)
      · exact Or.inr hf
    · intro h
      rcases h with hf | hf
      · exact Bool.or_eq_true_iff.2 (Or.inl (hloop.2 hf))
      · exact Bool.or_eq_true_iff.2 (Or.inr hf)
  · intro j hj hstep
    apply mainRun_details_mono
    have := runLoop_jsonDetail script cycles 0 j (by omega) (by simpa using hstep)
    simpa using this

/-- Witness for C2 (amended): in a clean one-cycle run the failure flag is
equivalent to some issued step (or the final STOP) having failed. -/
theorem claim_C2_amended_witness :
    ((mainRun (fun _ => StepOutcome.resp 200 true) 1 none).hadFailure = true ↔
      ((∃ j, j < 2 ∧ stepFailedB ((fun _ => StepOutcome.resp 200 true) j) = true) ∨
        finalFailedB ((fun _ => StepOutcome.resp 200 true) 2) = true)) :=
  (claim_C2_amended (fun _ => StepOutcome.resp 200 true) 1 none 2 rfl).1 rfl

/-- C4: `main` issues exactly one final closing `"Paused"` command after
cycle processing, on success and on failure alike; no cycle command is
ever issued after a failed step; and with zero cycles the closing
`"Paused"` is the only command issued and zero cycles complete. -/
theorem claim_C4 (script : Nat → StepOutcome) (cycles : Nat)
    (wallet : Option Nat) :
    (mainRun script cycles wallet).trace =
      (runLoop script cycles 0).cmds ++ [Cmd.paused] ∧
    (∀ j, j + 1 < (runLoop script cycles 0).cmds.length →
      stepFailedB (script j) = false) ∧
    (cycles = 0 →
      (mainRun script cycles wallet).trace = [Cmd.paused] ∧
      (mainRun script cycles wallet).completedCycles = 0) := by
  refine ⟨mainRun_trace script cycles wallet, ?_, ?_⟩
  · intro j hj
    have := runLoop_failfast script cycles 0 j hj
    simpa using this
  · intro hc
    subst hc
    refine ⟨?_, ?_⟩
    · rw [mainRun_trace, runLoop_zero]; rfl
    · rw [mainRun_completedCycles, runLoop_zero]

/-- Witness for C4: with zero cycles the only command issued is the single
closing `"Paused"` and the summary reports zero completed cycles. -/
theorem claim_C4_witness :
    (mainRun (fun _ => StepOutcome.resp 200 true) 0 none).trace = [Cmd.paused] ∧
    (mainRun (fun _ => StepOutcome.resp 200 true) 0 none).completedCycles = 0 :=
  (claim_C4 (fun _ => StepOutcome.resp 200 true) 0 none).2.2 rfl

/-- C9 counterexample: on a failed run `main` exits (status 1) *before* the
wallet running-count lookup — no `fetch_wallet_running_count` call is
performed, contradicting "whether it succeeded or failed ... exactly one
best-effort running-count lookup is performed". -/
theorem claim_C9_counterexample :
    (mainRun (fun _ => StepOutcome.resp 404 true) 1 none).hadFailure = true ∧
    (mainRun (fun _ => StepOutcome.resp 404 true) 1 none).walletLookups = 0 ∧
    (mainRun (fun _ => StepOutcome.resp 404 true) 1 none).exitCode = 1 := by
  refine ⟨by decide, by decide, by decide⟩

/-- C9 (amended): only after a run that concludes without failure (and
whose final STOP does not raise) is the single best-effort running-count
lookup performed — a failed run exits before the lookup; and the lookup's
result never affects the run's outcome: failure flag and exit code are
independent of it, and a successful run exits 0 with the (possibly absent)
count merely reported. -/
theorem claim_C9_amended (script : Nat → StepOutcome) (cycles : Nat)
    (wallet : Option Nat) :
    ((mainRun script cycles wallet).escaped = false →
      (mainRun script cycles wallet).walletLookups =
        (if (mainRun script cycles wallet).hadFailure then 0 else 1)) ∧
    ((mainRun script cycles wallet).hadFailure = false →
      (mainRun script cycles wallet).escaped = false →
      (mainRun script cycles wallet).exitCode = 0 ∧
      (mainRun script cycles wallet).walletLookups = 1 ∧
      (mainRun script cycles wallet).finalRunningCount = wallet) ∧
    (mainRun script cycles wallet).exitCode = (mainRun script cycles none).exitCode ∧
    (mainRun script cycles wallet).hadFailure = (mainRun script cycles none).hadFailure := by
  refine ⟨?_, ?_, (mainRun_wallet_fields script cycles wallet).1,
    (mainRun_wallet_fields script cycles wallet).2.1⟩
  · intro hesc
    cases h1 : finalEscapes (script (runLoop script cycles 0).cmds.length) with
    | true => rw [mainRun_escaped, h1] at hesc; cases hesc
    | false =>
      cases h2 : ((runLoop script cycles 0).hadFailure ||
          finalFailedB (script (runLoop script cycles 0).cmds.length)) with
      | true => rw [mainRun_eq_fail script cycles wallet h1 h2]; rfl
      | false => rw [mainRun_eq_ok script cycles wallet h1 h2]; rfl
  · intro hfail hesc
    cases h1 : finalEscapes (script (runLoop script cycles 0).cmds.length) with
    | true => rw [mainRun_escaped, h1] at hesc; cases hesc
    | false =>
      cases h2 : ((runLoop script cycles 0).hadFailure ||
          finalFailedB (script (runLoop script cycles 0).cmds.length)) with
      | true => rw [mainRun_eq_fail script cycles wallet h1 h2] at hfail; cases hfail
      | false =>
        rw [mainRun_eq_ok script cycles wallet h1 h2]
        exact ⟨rfl, rfl, rfl⟩

/-- Witness for C9 (amended): a clean single-cycle run performs exactly one
wallet lookup even when the lookup itself fails (returns no count), and
still exits 0. -/
theorem claim_C9_amended_witness :
    (mainRun (fun _ => StepOutcome.resp 200 true) 1 none).exitCode = 0 ∧
    (mainRun (fun _ => StepOutcome.resp 200 true) 1 none).walletLookups = 1 ∧
    (mainRun (fun _ => StepOutcome.resp 200 true) 1 none).finalRunningCount = none :=
  (claim_C9_amended (fun _ => StepOutcome.resp 200 true) 1 none).2.1 (by decide) (by decide)

/-- A probe that does not win is skipped and the chain continues with the
next probe, counting the skipped probe as issued. -/
lemma probeScan_skip (p : ProbeOutcome) (rest : List ProbeOutcome)
    (h : probeWins p = false) :
    probeScan (p :: rest) = ((probeScan rest).1, (probeScan rest).2 + 1) := by
  cases p with
  | exn => rfl
  | resp status body =>
    by_cases hs : status ≠ 200
    · simp [probeScan, hs]
    · cases body with
      | none => simp [probeScan, hs]
      | some d =>
        have hd : jsonTruthy d = false := by simpa [probeWins, hs] using h
        simp [probeScan, hs, hd]

/-- A winning probe stops the chain at once with its payload. -/
lemma probeScan_win (rest : List ProbeOutcome) (d : Json)
    (hd : jsonTruthy d = true) :
    probeScan (ProbeOutcome.resp 200 (some d) :: rest) = (some d, 1) := by
  simp [probeScan, hd]

/-- C3 counterexample: probe 1 returns 200 with *decodable* JSON (`{}`),
yet — because the loop also requires Python-truthy JSON (`if data:`) —
probe 2 is still issued and its payload is the one extracted: the resolver
returns probe 2's label with two probes issued, not probe 1's payload with
one probe issued as the claim states. -/
theorem claim_C3_counterexample :
    fetch_current_status (ProbeOutcome.resp 200 (some (Json.obj [])))
      (ProbeOutcome.resp 200 (some (Json.obj
        [("id", Json.str "42"), ("status", Json.str "Running")])))
      (ProbeOutcome.resp 200 (some (Json.obj
        [("id", Json.str "42"), ("status", Json.str "Paused")])))
      (HtmlFetchOutcome.resp 200 []) "42" =
      Except.ok ⟨"Running", 2, false⟩ := by rfl

/-- C3 (amended): the three probes are tried in the fixed order
POST-filter/dashboard, GET-status, GET-details; a transport exception, a
non-200 response, a JSON-decode failure, *or decodable-but-falsy JSON*
(empty object/array, `null`, `""`, `0`, `false`) is swallowed and the chain
continues; the first probe returning decodable truthy JSON wins: its
payload is used for extraction and no later probe is issued. -/
theorem claim_C3_amended (p1 p2 p3 : ProbeOutcome) (html : HtmlFetchOutcome)
    (sid : String) :
    (∀ d, p1 = ProbeOutcome.resp 200 (some d) → jsonTruthy d = true →
      fetch_current_status p1 p2 p3 html sid =
        Except.ok ⟨find_status sid d, 1, false⟩) ∧
    (probeWins p1 = false →
      ∀ d, p2 = ProbeOutcome.resp 200 (some d) → jsonTruthy d = true →
      fetch_current_status p1 p2 p3 html sid =
        Except.ok ⟨find_status sid d, 2, false⟩) ∧
    (probeWins p1 = false → probeWins p2 = false →
      ∀ d, p3 = ProbeOutcome.resp 200 (some d) → jsonTruthy d = true →
      fetch_current_status p1 p2 p3 html sid =
        Except.ok ⟨find_status sid d, 3, false⟩) := by
  refine ⟨?_, ?_, ?_⟩
  · intro d hp hd
    subst hp
    have hscan : probeScan [ProbeOutcome.resp 200 (some d), p2, p3] = (some d, 1) :=
      probeScan_win _ d hd
    simp [fetch_current_status, hscan]
  · intro h1 d hp hd
    subst hp
    have hscan : probeScan [p1, ProbeOutcome.resp 200 (some d), p3] = (some d, 2) := by
      rw [probeScan_skip p1 _ h1, probeScan_win _ d hd]
    simp [fetch_current_status, hscan]
  · intro h1 h2 d hp hd
    subst hp
    have hscan : probeScan [p1, p2, ProbeOutcome.resp 200 (some d)] = (some d, 3) := by
      rw [probeScan_skip p1 _ h1, probeScan_skip p2 _ h2, probeScan_win _ d hd]
    simp [fetch_current_status, hscan]

/-- Witness for C3 (amended), the spec's own test: probe 1 non-200 (a 500),
probe 2 200 with matching JSON — the resolver returns probe 2's label and
probe 3 is never issued (two probes issued in total). -/
theorem claim_C3_amended_witness :
    fetch_current_status (ProbeOutcome.resp 500 none)
      (ProbeOutcome.resp 200 (some (Json.obj
        [("id", Json.str "42"), ("status", Json.str "Running")])))
      ProbeOutcome.exn (HtmlFetchOutcome.resp 200 []) "42" =
      Except.ok ⟨"Running", 2, false⟩ :=
  (claim_C3_amended (ProbeOutcome.resp 500 none)
    (ProbeOutcome.resp 200 (some (Json.obj
      [("id", Json.str "42"), ("status", Json.str "Running")])))
    ProbeOutcome.exn (HtmlFetchOutcome.resp 200 []) "42").2.1 rfl
    (Json.obj [("id", Json.str "42"), ("status", Json.str "Running")]) rfl rfl

/-- C5: on the nested document
`{"data":{"list":[{"id":"42","status":"Running"}]}}` with entity id `"42"`
the extraction returns `"Running"`; and identifier matching goes through
`str()` on both sides, so a numeric id `42` in the document matches the
entity id whose string form is `"42"`, exactly as a string `"42"` does. -/
theorem claim_C5 :
    find_status "42" (Json.obj [("data", Json.obj [("list", Json.arr
      [Json.obj [("id", Json.str "42"), ("status", Json.str "Running")]])])]) =
      "Running" ∧
    (∀ n : Int, ∀ label : String,
      find_status (toString n)
        (Json.obj [("id", Json.num n), ("status", Json.str label)]) = label ∧
      find_status (toString n)
        (Json.obj [("id", Json.str (toString n)), ("status", Json.str label)]) =
        label) := by
  refine ⟨rfl, ?_⟩
  intro n label
  constructor <;>
    simp [find_status, matchIdKeys, statusFromNode, extractLabel, pyStr, pyRepr,
      id_keys, status_keys, List.lookup, List.any, List.findSome?]

/-- C7 counterexample: when no probe yields usable JSON and the
HTML-fallback GET raises a transport exception, `fetch_current_status`
raises to its caller instead of returning a string — the fallback GET in
`fetch_status_from_html` is not wrapped in `try`. -/
theorem claim_C7_counterexample :
    fetch_current_status ProbeOutcome.exn ProbeOutcome.exn ProbeOutcome.exn
      HtmlFetchOutcome.exn "42" = Except.error () := by rfl

/-- C7 (amended): `fetch_current_status` raises if and only if the probe
chain produced no usable JSON *and* the HTML-fallback GET raised; in every
other case — any combination of probe transport exceptions, non-200
responses, undecodable JSON, extraction misses, or a failed/empty HTML
fallback — it recovers locally and returns a string (possibly empty). -/
theorem claim_C7_amended (p1 p2 p3 : ProbeOutcome) (html : HtmlFetchOutcome)
    (sid : String) :
    ((fetch_current_status p1 p2 p3 html sid = Except.error ()) ↔
      ((probeScan [p1, p2, p3]).1 = none ∧ html = HtmlFetchOutcome.exn)) ∧
    (html ≠ HtmlFetchOutcome.exn →
      ∃ r, fetch_current_status p1 p2 p3 html sid = Except.ok r) := by
  constructor
  · cases hscan : (probeScan [p1, p2, p3]).1 with
    | some d => simp [fetch_current_status, hscan]
    | none =>
      cases html with
      | exn => simp [fetch_current_status, fetch_status_from_html, hscan]
      | resp status events =>
        by_cases hs : status ≠ 200 <;>
          simp [fetch_current_status, fetch_status_from_html, hscan, hs] <;>
          split <;> simp
  · intro hh
    cases hscan : (probeScan [p1, p2, p3]).1 with
    | some d =>
      exact ⟨⟨find_status sid d, (probeScan [p1, p2, p3]).2, false⟩,
        by simp [fetch_current_status, hscan]⟩
    | none =>
      cases html with
      | exn => exact absurd rfl hh
      | resp status events =>
        by_cases hs : status ≠ 200
        · exact ⟨⟨"", (probeScan [p1, p2, p3]).2, true⟩,
            by simp [fetch_current_status, fetch_status_from_html, hscan, hs]⟩
        · simp only [fetch_current_status, fetch_status_from_html, hscan]
          simp only [hs, if_false]
          split
          · exact ⟨_, rfl⟩
          · exact ⟨_, rfl⟩

/-- Witness for C7 (amended): with every probe raising but the fallback GET
answering (even with a non-200), the resolver still returns normally. -/
theorem claim_C7_amended_witness :
    ∃ r, fetch_current_status ProbeOutcome.exn ProbeOutcome.exn ProbeOutcome.exn
      (HtmlFetchOutcome.resp 404 []) "7" = Except.ok r :=
  (claim_C7_amended ProbeOutcome.exn ProbeOutcome.exn ProbeOutcome.exn
    (HtmlFetchOutcome.resp 404 []) "7").2 (by decide)

/-- The tail of `load_session` validates only sessions whose cookie bytes
unpickled and whose probe answered exactly 200. -/
lemma loadSessionRest_ok (pickleResult : Option (List Cookie))
    (probe : ValidationProbe) (cookies : List Cookie)
    (h : loadSessionRest pickleResult probe = SessionResult.ok cookies) :
    pickleResult = some cookies ∧ probe = ValidationProbe.resp 200 := by
  cases pickleResult with
  | none => cases h
  | some cs =>
    cases probe with
    | exn => cases h
    | resp status =>
      by_cases hs : status ≠ 200
      · simp [loadSessionRest, hs] at h
      · have hs' : status = 200 := by omega
        subst hs'
        simp [loadSessionRest] at h
        subst h
        exact ⟨rfl, rfl⟩

/-- C8: `load_session` yields a session only when the cookie blob decodes
into a list of cookie records *and* the immediate read-only validation
probe returns exactly 200; in every other case (malformed blob, non-200
probe, transport exception during the probe) no session comes back and
`main` aborts before issuing a single toggle command. -/
theorem claim_C8 (fileExists : Bool) (envBlob : Option Bool)
    (pickleResult : Option (List Cookie)) (probe : ValidationProbe)
    (script : Nat → StepOutcome) (cycles : Nat) (wallet : Option Nat) :
    (∀ cookies,
      load_session fileExists envBlob pickleResult probe = SessionResult.ok cookies →
      pickleResult = some cookies ∧ probe = ValidationProbe.resp 200) ∧
    ((load_session fileExists envBlob pickleResult probe = SessionResult.authError ∨
      load_session fileExists envBlob pickleResult probe = SessionResult.raised) →
      mainToggleTrace (load_session fileExists envBlob pickleResult probe)
        script cycles wallet = []) := by
  constructor
  · intro cookies hok
    cases fileExists with
    | true => exact loadSessionRest_ok pickleResult probe cookies hok
    | false =>
      cases envBlob with
      | none => cases hok
      | some b =>
        cases b with
        | false => cases hok
        | true => exact loadSessionRest_ok pickleResult probe cookies hok
  · intro hbad
    rcases hbad with h | h <;> rw [h] <;> rfl

/-- Witness for C8: a 401 from the validation probe yields no session and
`main` issues no toggle command at all. -/
theorem claim_C8_witness :
    mainToggleTrace
      (load_session true none (some [⟨"session", "abc", none⟩])
        (ValidationProbe.resp 401))
      (fun _ => StepOutcome.resp 200 true) 3 none = [] :=
  (claim_C8 true none (some [⟨"session", "abc", none⟩]) (ValidationProbe.resp 401)
    (fun _ => StepOutcome.resp 200 true) 3 none).2 (Or.inl rfl)

/-- Any event that is not a matching `div` start tag leaves the parser's
initial state untouched: nothing outside the target fragment is ever
captured. -/
lemma parserStep_init (sid : String) (e : HtmlEvent)
    (h : opensTarget sid e = false) :
    parserStep sid initParserState e = initParserState := by
  cases e with
  | starttag tag attrs =>
    simp only [opensTarget] at h
    simp only [parserStep, handle_starttag, initParserState]
    simp only [Bool.not_false, Bool.and_true, h]
    rfl
  | endtag tag => rfl
  | data text => rfl

/-- A prefix with no matching `div` start tag keeps the parser in its
initial state. -/
lemma foldl_parserStep_init (sid : String) (pre : List HtmlEvent)
    (h : ∀ e ∈ pre, opensTarget sid e = false) :
    pre.foldl (parserStep sid) initParserState = initParserState := by
  induction pre with
  | nil => rfl
  | cons e rest ih =>
    rw [List.foldl_cons, parserStep_init sid e (h e (by simp))]
    exact ih fun e' he' => h e' (by simp [he'])

/-- Once a non-empty status has been captured, no later event changes it:
only the first non-empty capture counts. -/
lemma parserStep_status_frozen (sid : String) (s : ParserState) (e : HtmlEvent)
    (h : s.status ≠ "") :
    (parserStep sid s e).status = s.status := by
  cases e with
  | starttag tag attrs =>
    simp only [parserStep, handle_starttag]
    split
    · rfl
    · split
      · split <;> rfl
      · rfl
  | endtag tag =>
    simp only [parserStep, handle_endtag]
    split
    · split <;> split <;> rfl
    · rfl
  | data text =>
    have hb : (s.status == "") = false := by simpa using h
    simp only [parserStep, handle_data, hb, Bool.and_false]
    split
    · rfl
    · split
      · rfl
      · split
        · rfl
        · rfl

lemma foldl_parserStep_status_frozen (sid : String) (post : List HtmlEvent) :
    ∀ s : ParserState, s.status ≠ "" →
      (post.foldl (parserStep sid) s).status = s.status := by
  induction post with
  | nil => intro s _; rfl
  | cons e rest ih =>
    intro s hs
    rw [List.foldl_cons]
    have hstep := parserStep_status_frozen sid s e hs
    rw [ih (parserStep sid s e) (by rw [hstep]; exact hs), hstep]

/-- The six-event core: entering the matching `div`, seeing a text node
containing "Status", then a `span` whose stripped text is the label,
captures exactly that label and leaves the fragment cleanly. -/
lemma parser_core (sid idAttr label : String)
    (hsub : pySubstr sid idAttr = true) (hid : idAttr ≠ "")
    (hlab_ne : pyStrip label ≠ "")
    (hlab_nostatus : pySubstr "Status" (pyStrip label) = false) :
    ([HtmlEvent.starttag "div" [("id", idAttr)], HtmlEvent.data "Status",
      HtmlEvent.starttag "span" [], HtmlEvent.data label,
      HtmlEvent.endtag "span", HtmlEvent.endtag "div"].foldl (parserStep sid)
        initParserState) = ⟨false, 0, false, false, pyStrip label⟩ := by
  have hid' : (idAttr != "") = true := by simpa using hid
  have hlab' : (pyStrip label == "") = false := by simpa using hlab_ne
  have s1 : parserStep sid initParserState
      (HtmlEvent.starttag "div" [("id", idAttr)]) = ⟨true, 1, false, false, ""⟩ := by
    simp [parserStep, handle_starttag, initParserState, pyDictGet, List.lookup,
      hid', hsub]
  have s2 : parserStep sid (⟨true, 1, false, false, ""⟩ : ParserState)
      (HtmlEvent.data "Status") = ⟨true, 1, true, false, ""⟩ := by
    simp only [parserStep]
    decide
  have s3 : parserStep sid (⟨true, 1, true, false, ""⟩ : ParserState)
      (HtmlEvent.starttag "span" []) = ⟨true, 2, true, true, ""⟩ := by
    simp [parserStep, handle_starttag, pyDictGet, List.lookup]
  have s4 : parserStep sid (⟨true, 2, true, true, ""⟩ : ParserState)
      (HtmlEvent.data label) = ⟨true, 2, true, true, pyStrip label⟩ := by
    simp [parserStep, handle_data, hlab', hlab_nostatus]
  have s5 : parserStep sid (⟨true, 2, true, true, pyStrip label⟩ : ParserState)
      (HtmlEvent.endtag "span") = ⟨true, 1, false, false, pyStrip label⟩ := by
    simp [parserStep, handle_endtag]
  have s6 : parserStep sid (⟨true, 1, false, false, pyStrip label⟩ : ParserState)
      (HtmlEvent.endtag "div") = ⟨false, 0, false, false, pyStrip label⟩ := by
    simp [parserStep, handle_endtag]
  simp only [List.foldl_cons, List.foldl_nil, s1, s2, s3, s4, s5, s6]

/-- C6 counterexample: two documents that satisfy the claim's premise — a
`div` whose id attribute contains the entity id, with a text node
containing "Status" followed by a span — on which the parser does *not*
return the next span's text.  First: the span's own text contains
"Status", so `handle_data` re-arms the awaiting flag instead of capturing
and the parser returns `""` where the claim promises `"StatusFoo"`.
Second: an empty span sits between the "Status" marker and the non-empty
span; closing it clears `awaiting_status_span`, so the later
`<span>Paused</span>` is never captured and the parser returns `""` where
the claim's "first non-empty capture" promises `"Paused"`. -/
theorem claim_C6_counterexample :
    runStatusParser "42"
      [HtmlEvent.starttag "div" [("id", "strategy-42-box")], HtmlEvent.data "Status",
       HtmlEvent.starttag "span" [], HtmlEvent.data "StatusFoo",
       HtmlEvent.endtag "span", HtmlEvent.endtag "div"] = "" ∧
    runStatusParser "42"
      [HtmlEvent.starttag "div" [("id", "strategy-42-box")], HtmlEvent.data "Status",
       HtmlEvent.starttag "span" [], HtmlEvent.endtag "span",
       HtmlEvent.starttag "span" [], HtmlEvent.data "Paused",
       HtmlEvent.endtag "span", HtmlEvent.endtag "div"] = "" := by
  exact ⟨by decide, by decide⟩

/-- C6 (amended): the capture succeeds only for the well-behaved fragment
shape.  For any event stream made of a prefix that opens no matching
container, then a `div` whose id attribute contains the entity id,
directly followed inside the fragment by a text node containing "Status"
and then a `span` whose stripped text is non-empty and does not itself
contain "Status", the closing tags and any suffix: the parser returns
exactly that span's stripped text — the first non-empty capture — and
text nodes and spans outside the target fragment are never captured.  A
span whose text contains "Status", or an intervening empty span (which
disarms the watcher), escapes capture and can leave the result empty. -/
theorem claim_C6 (sid idAttr label : String) (pre post : List HtmlEvent)
    (hpre : ∀ e ∈ pre, opensTarget sid e = false)
    (hsub : pySubstr sid idAttr = true)
    (hid : idAttr ≠ "")
    (hlab_ne : pyStrip label ≠ "")
    (hlab_nostatus : pySubstr "Status" (pyStrip label) = false) :
    runStatusParser sid
      (pre ++ ([HtmlEvent.starttag "div" [("id", idAttr)], HtmlEvent.data "Status",
        HtmlEvent.starttag "span" [], HtmlEvent.data label,
        HtmlEvent.endtag "span", HtmlEvent.endtag "div"] ++ post)) =
      pyStrip label := by
  unfold runStatusParser
  rw [List.foldl_append, foldl_parserStep_init sid pre hpre, List.foldl_append,
    parser_core sid idAttr label hsub hid hlab_ne hlab_nostatus]
  exact foldl_parserStep_status_frozen sid post
    ⟨false, 0, false, false, pyStrip label⟩ hlab_ne

/-- Witness for C6 (amended): a concrete page — noise outside the
fragment, then the matching container with a "Status" text node and
`<span>Paused</span>` — yields `"Paused"`. -/
theorem claim_C6_witness :
    runStatusParser "42"
      ([HtmlEvent.data "Status outside", HtmlEvent.starttag "span" [],
        HtmlEvent.data "Ignored", HtmlEvent.endtag "span"] ++
       ([HtmlEvent.starttag "div" [("id", "strategy-42-box")],
         HtmlEvent.data "Status", HtmlEvent.starttag "span" [],
         HtmlEvent.data "Paused", HtmlEvent.endtag "span",
         HtmlEvent.endtag "div"] ++ [HtmlEvent.data "Tail"])) = "Paused" :=
  claim_C6 "42" "strategy-42-box" "Paused"
    [HtmlEvent.data "Status outside", HtmlEvent.starttag "span" [],
      HtmlEvent.data "Ignored", HtmlEvent.endtag "span"]
    [HtmlEvent.data "Tail"]
    (by decide) (by decide) (by decide) (by decide) (by decide)

end TTWallet
